import Mathlib

/-!
Verification of the brick-breaker simulation core (`src/brick_breaker.py`).

The Python module holds all game state as mutable fields of a
`BrickBreakerGame` object; we embed that state as the structure `Game` and
every state-mutating method as a function `Game → Game`.  Python floats are
modelled as rationals `ℚ`; the only transcendental operations the code uses
are `math.sin`, `math.cos` and the constant `math.pi` inside the paddle
bounce, which we abstract as a `Trig` parameter (rational-valued stand-ins
for the real functions).  Theorems that depend on properties of the real
sine and cosine take those properties (the Pythagorean identity, exactness
at angle 0) as hypotheses on the `Trig` parameter.

The key-press flags `left_pressed` / `right_pressed` are fields of the game
object written by the key handlers and read by `_update`; they are fields of
`Game` here, and `setInput` models the combined effect of the key handlers
(`_handle_key_down` / `_handle_key_up`) before a tick.
-/

/-- `Brick` dataclass: axis-aligned rectangle plus an `alive` flag. -/
structure Brick where
  x : ℚ
  y : ℚ
  width : ℚ
  height : ℚ
  alive : Bool
deriving DecidableEq, Repr

/-- All mutable state of `BrickBreakerGame` (canvas excluded: render-only). -/
structure Game where
  width : ℚ
  height : ℚ
  rows : ℕ
  columns : ℕ
  paddle_width : ℚ
  paddle_height : ℚ
  paddle_x : ℚ
  paddle_speed : ℚ
  ball_radius : ℚ
  ball_x : ℚ
  ball_y : ℚ
  ball_speed : ℚ
  ball_vx : ℚ
  ball_vy : ℚ
  score : ℤ
  game_over : Bool
  win : Bool
  left_pressed : Bool
  right_pressed : Bool
  bricks : List Brick
deriving DecidableEq, Repr

/-- Models `math.pi`, `math.sin`, `math.cos` (rational stand-ins). -/
structure Trig where
  piq : ℚ
  sinq : ℚ → ℚ
  cosq : ℚ → ℚ

/-- `BrickBreakerGame._create_bricks`: a rows × columns grid, all alive. -/
def createBricks (width : ℚ) (rows columns : ℕ) : List Brick :=
  let padding : ℚ := 6
  let offset_top : ℚ := 40
  let offset_left : ℚ := 30
  let brick_width : ℚ :=
    (width - 2 * offset_left - ((columns : ℚ) - 1) * padding) / (columns : ℚ)
  let brick_height : ℚ := 16
  (List.range rows).flatMap (fun row =>
    (List.range columns).map (fun col =>
      { x := offset_left + (col : ℚ) * (brick_width + padding)
        y := offset_top + (row : ℚ) * (brick_height + padding)
        width := brick_width
        height := brick_height
        alive := true }))

/-- `BrickBreakerGame.__init__` (canvas and key-handler wiring dropped). -/
def Game.init (width height : ℚ) (rows columns : ℕ) : Game where
  width := width
  height := height
  rows := rows
  columns := columns
  paddle_width := 90
  paddle_height := 12
  paddle_x := (width - 90) / 2
  paddle_speed := 6
  ball_radius := 6
  ball_x := width / 2
  ball_y := height - 40
  ball_speed := 9/2
  ball_vx := 9/2
  ball_vy := -(9/2)
  score := 0
  game_over := false
  win := false
  left_pressed := false
  right_pressed := false
  bricks := createBricks width rows columns

/-- Net effect of the key handlers on the two input flags. -/
def setInput (l r : Bool) (g : Game) : Game :=
  { g with left_pressed := l, right_pressed := r }

/-- `BrickBreakerGame._move_paddle`. -/
def movePaddle (g : Game) : Game :=
  let px := if g.left_pressed then g.paddle_x - g.paddle_speed else g.paddle_x
  let px := if g.right_pressed then px + g.paddle_speed else px
  { g with paddle_x := max 0 (min (g.width - g.paddle_width) px) }

/-- `BrickBreakerGame._move_ball`. -/
def moveBall (g : Game) : Game :=
  let nx := g.ball_x + g.ball_vx
  let ny := g.ball_y + g.ball_vy
  let vx := if nx ≤ g.ball_radius ∨ nx ≥ g.width - g.ball_radius
            then -g.ball_vx else g.ball_vx
  let vy := if ny ≤ g.ball_radius then -g.ball_vy else g.ball_vy
  let go := if ny ≥ g.height - g.ball_radius then true else g.game_over
  { g with ball_x := nx, ball_y := ny, ball_vx := vx, ball_vy := vy,
           game_over := go }

/-- The guard of `BrickBreakerGame._collide_with_paddle` (`paddle_top` is
`height - 30`). -/
def paddleHitCond (g : Game) : Prop :=
  g.height - 30 - g.ball_radius ≤ g.ball_y ∧
  g.ball_y ≤ g.height - 30 + g.paddle_height ∧
  g.paddle_x - g.ball_radius ≤ g.ball_x ∧
  g.ball_x ≤ g.paddle_x + g.paddle_width + g.ball_radius ∧
  0 < g.ball_vy

instance (g : Game) : Decidable (paddleHitCond g) := by
  unfold paddleHitCond; infer_instance

/-- The bounce angle: `(hit_pos - 0.5) * math.pi / 2.2` with
`hit_pos = (ball_x - paddle_x) / paddle_width`. -/
def paddleAngle (t : Trig) (g : Game) : ℚ :=
  ((g.ball_x - g.paddle_x) / g.paddle_width - 1/2) * t.piq / (11/5)

/-- `BrickBreakerGame._collide_with_paddle`. -/
def collideWithPaddle (t : Trig) (g : Game) : Game :=
  if paddleHitCond g then
    { g with ball_vx := g.ball_speed * t.sinq (paddleAngle t g)
             ball_vy := -|g.ball_speed * t.cosq (paddleAngle t g)| }
  else g

/-- The per-brick AABB test of `_collide_with_bricks` (brick rectangle
expanded by the ball radius on all sides, applied to the ball center). -/
def brickHit (radius bx bY : ℚ) (b : Brick) : Prop :=
  b.x - radius ≤ bx ∧ bx ≤ b.x + b.width + radius ∧
  b.y - radius ≤ bY ∧ bY ≤ b.y + b.height + radius

instance (radius bx bY : ℚ) (b : Brick) : Decidable (brickHit radius bx bY b) := by
  unfold brickHit; infer_instance

/-- The `for … break` loop of `_collide_with_bricks`: kill the first alive
brick hit by the ball, leave the rest untouched, report whether a brick was
hit. -/
def scanBricks (radius bx bY : ℚ) : List Brick → List Brick × Bool
  | [] => ([], false)
  | b :: rest =>
    if b.alive = true ∧ brickHit radius bx bY b then
      ({ b with alive := false } :: rest, true)
    else
      let r := scanBricks radius bx bY rest
      (b :: r.1, r.2)

/-- `BrickBreakerGame._collide_with_bricks` (loop, score/velocity update,
then the all-dead check on the updated brick list). -/
def collideWithBricks (g : Game) : Game :=
  let r := scanBricks g.ball_radius g.ball_x g.ball_y g.bricks
  let g2 := { g with bricks := r.1
                     score := if r.2 then g.score + 10 else g.score
                     ball_vy := if r.2 then -g.ball_vy else g.ball_vy }
  if g2.bricks.all (fun b => !b.alive) then
    { g2 with win := true, game_over := true }
  else g2

/-- `BrickBreakerGame._update`. -/
def update (t : Trig) (g : Game) : Game :=
  if g.game_over then g
  else collideWithBricks (collideWithPaddle t (moveBall (movePaddle g)))

/-- `BrickBreakerGame.reset`. -/
def reset (g : Game) : Game :=
  { g with paddle_x := (g.width - g.paddle_width) / 2
           ball_x := g.width / 2
           ball_y := g.height - 40
           ball_vx := g.ball_speed
           ball_vy := -g.ball_speed
           score := 0
           game_over := false
           win := false
           left_pressed := false
           right_pressed := false
           bricks := createBricks g.width g.rows g.columns }

/-- Number of destroyed bricks. -/
def countDead (l : List Brick) : ℕ :=
  (l.filter (fun b => !b.alive)).length

/-- States reachable from `g0` by ticks (`_update`), `reset`, and key events
(which rewrite the input flags between ticks). -/
inductive Reachable (t : Trig) (g0 : Game) : Game → Prop
  | refl : Reachable t g0 g0
  | step_update {g : Game} : Reachable t g0 g → Reachable t g0 (update t g)
  | step_reset {g : Game} : Reachable t g0 g → Reachable t g0 (reset g)
  | step_input {g : Game} (l r : Bool) :
      Reachable t g0 g → Reachable t g0 (setInput l r g)

/-! ### Frame lemmas: which fields each phase leaves untouched -/

@[simp] theorem movePaddle_width (g : Game) : (movePaddle g).width = g.width := rfl
@[simp] theorem movePaddle_height (g : Game) : (movePaddle g).height = g.height := rfl
@[simp] theorem movePaddle_paddle_width (g : Game) : (movePaddle g).paddle_width = g.paddle_width := rfl
@[simp] theorem movePaddle_paddle_height (g : Game) : (movePaddle g).paddle_height = g.paddle_height := rfl
@[simp] theorem movePaddle_paddle_speed (g : Game) : (movePaddle g).paddle_speed = g.paddle_speed := rfl
@[simp] theorem movePaddle_ball_radius (g : Game) : (movePaddle g).ball_radius = g.ball_radius := rfl
@[simp] theorem movePaddle_ball_x (g : Game) : (movePaddle g).ball_x = g.ball_x := rfl
@[simp] theorem movePaddle_ball_y (g : Game) : (movePaddle g).ball_y = g.ball_y := rfl
@[simp] theorem movePaddle_ball_speed (g : Game) : (movePaddle g).ball_speed = g.ball_speed := rfl
@[simp] theorem movePaddle_ball_vx (g : Game) : (movePaddle g).ball_vx = g.ball_vx := rfl
@[simp] theorem movePaddle_ball_vy (g : Game) : (movePaddle g).ball_vy = g.ball_vy := rfl
@[simp] theorem movePaddle_score (g : Game) : (movePaddle g).score = g.score := rfl
@[simp] theorem movePaddle_game_over (g : Game) : (movePaddle g).game_over = g.game_over := rfl
@[simp] theorem movePaddle_win (g : Game) : (movePaddle g).win = g.win := rfl
@[simp] theorem movePaddle_bricks (g : Game) : (movePaddle g).bricks = g.bricks := rfl

theorem movePaddle_paddle_x (g : Game) :
    (movePaddle g).paddle_x =
      max 0 (min (g.width - g.paddle_width)
        (if g.right_pressed then
          (if g.left_pressed then g.paddle_x - g.paddle_speed else g.paddle_x) + g.paddle_speed
         else if g.left_pressed then g.paddle_x - g.paddle_speed else g.paddle_x)) := rfl

@[simp] theorem moveBall_width (g : Game) : (moveBall g).width = g.width := rfl
@[simp] theorem moveBall_height (g : Game) : (moveBall g).height = g.height := rfl
@[simp] theorem moveBall_paddle_width (g : Game) : (moveBall g).paddle_width = g.paddle_width := rfl
@[simp] theorem moveBall_paddle_height (g : Game) : (moveBall g).paddle_height = g.paddle_height := rfl
@[simp] theorem moveBall_paddle_x (g : Game) : (moveBall g).paddle_x = g.paddle_x := rfl
@[simp] theorem moveBall_ball_radius (g : Game) : (moveBall g).ball_radius = g.ball_radius := rfl
@[simp] theorem moveBall_ball_speed (g : Game) : (moveBall g).ball_speed = g.ball_speed := rfl
@[simp] theorem moveBall_score (g : Game) : (moveBall g).score = g.score := rfl
@[simp] theorem moveBall_win (g : Game) : (moveBall g).win = g.win := rfl
@[simp] theorem moveBall_bricks (g : Game) : (moveBall g).bricks = g.bricks := rfl
@[simp] theorem moveBall_ball_x (g : Game) : (moveBall g).ball_x = g.ball_x + g.ball_vx := rfl
@[simp] theorem moveBall_ball_y (g : Game) : (moveBall g).ball_y = g.ball_y + g.ball_vy := rfl

theorem moveBall_ball_vx (g : Game) :
    (moveBall g).ball_vx =
      if g.ball_x + g.ball_vx ≤ g.ball_radius ∨
         g.ball_x + g.ball_vx ≥ g.width - g.ball_radius
      then -g.ball_vx else g.ball_vx := rfl

theorem moveBall_ball_vy (g : Game) :
    (moveBall g).ball_vy =
      if g.ball_y + g.ball_vy ≤ g.ball_radius then -g.ball_vy else g.ball_vy := rfl

theorem moveBall_game_over (g : Game) :
    (moveBall g).game_over =
      if g.ball_y + g.ball_vy ≥ g.height - g.ball_radius then true
      else g.game_over := rfl

@[simp] theorem collideWithPaddle_width (t : Trig) (g : Game) :
    (collideWithPaddle t g).width = g.width := by
  unfold collideWithPaddle; split <;> rfl

@[simp] theorem collideWithPaddle_height (t : Trig) (g : Game) :
    (collideWithPaddle t g).height = g.height := by
  unfold collideWithPaddle; split <;> rfl

@[simp] theorem collideWithPaddle_paddle_x (t : Trig) (g : Game) :
    (collideWithPaddle t g).paddle_x = g.paddle_x := by
  unfold collideWithPaddle; split <;> rfl

@[simp] theorem collideWithPaddle_paddle_width (t : Trig) (g : Game) :
    (collideWithPaddle t g).paddle_width = g.paddle_width := by
  unfold collideWithPaddle; split <;> rfl

@[simp] theorem collideWithPaddle_ball_radius (t : Trig) (g : Game) :
    (collideWithPaddle t g).ball_radius = g.ball_radius := by
  unfold collideWithPaddle; split <;> rfl

@[simp] theorem collideWithPaddle_ball_x (t : Trig) (g : Game) :
    (collideWithPaddle t g).ball_x = g.ball_x := by
  unfold collideWithPaddle; split <;> rfl

@[simp] theorem collideWithPaddle_ball_y (t : Trig) (g : Game) :
    (collideWithPaddle t g).ball_y = g.ball_y := by
  unfold collideWithPaddle; split <;> rfl

@[simp] theorem collideWithPaddle_ball_speed (t : Trig) (g : Game) :
    (collideWithPaddle t g).ball_speed = g.ball_speed := by
  unfold collideWithPaddle; split <;> rfl

@[simp] theorem collideWithPaddle_score (t : Trig) (g : Game) :
    (collideWithPaddle t g).score = g.score := by
  unfold collideWithPaddle; split <;> rfl

@[simp] theorem collideWithPaddle_game_over (t : Trig) (g : Game) :
    (collideWithPaddle t g).game_over = g.game_over := by
  unfold collideWithPaddle; split <;> rfl

@[simp] theorem collideWithPaddle_win (t : Trig) (g : Game) :
    (collideWithPaddle t g).win = g.win := by
  unfold collideWithPaddle; split <;> rfl

@[simp] theorem collideWithPaddle_bricks (t : Trig) (g : Game) :
    (collideWithPaddle t g).bricks = g.bricks := by
  unfold collideWithPaddle; split <;> rfl

@[simp] theorem collideWithBricks_width (g : Game) :
    (collideWithBricks g).width = g.width := by
  simp only [collideWithBricks]; split <;> rfl

@[simp] theorem collideWithBricks_height (g : Game) :
    (collideWithBricks g).height = g.height := by
  simp only [collideWithBricks]; split <;> rfl

@[simp] theorem collideWithBricks_paddle_x (g : Game) :
    (collideWithBricks g).paddle_x = g.paddle_x := by
  simp only [collideWithBricks]; split <;> rfl

@[simp] theorem collideWithBricks_paddle_width (g : Game) :
    (collideWithBricks g).paddle_width = g.paddle_width := by
  simp only [collideWithBricks]; split <;> rfl

@[simp] theorem collideWithBricks_ball_x (g : Game) :
    (collideWithBricks g).ball_x = g.ball_x := by
  simp only [collideWithBricks]; split <;> rfl

@[simp] theorem collideWithBricks_ball_y (g : Game) :
    (collideWithBricks g).ball_y = g.ball_y := by
  simp only [collideWithBricks]; split <;> rfl

@[simp] theorem collideWithBricks_ball_speed (g : Game) :
    (collideWithBricks g).ball_speed = g.ball_speed := by
  simp only [collideWithBricks]; split <;> rfl

@[simp] theorem collideWithBricks_ball_vx (g : Game) :
    (collideWithBricks g).ball_vx = g.ball_vx := by
  simp only [collideWithBricks]; split <;> rfl

theorem collideWithBricks_bricks (g : Game) :
    (collideWithBricks g).bricks =
      (scanBricks g.ball_radius g.ball_x g.ball_y g.bricks).1 := by
  simp only [collideWithBricks]; split <;> rfl

theorem collideWithBricks_score (g : Game) :
    (collideWithBricks g).score =
      if (scanBricks g.ball_radius g.ball_x g.ball_y g.bricks).2
      then g.score + 10 else g.score := by
  simp only [collideWithBricks]; split <;> rfl

theorem collideWithBricks_ball_vy (g : Game) :
    (collideWithBricks g).ball_vy =
      if (scanBricks g.ball_radius g.ball_x g.ball_y g.bricks).2
      then -g.ball_vy else g.ball_vy := by
  simp only [collideWithBricks]; split <;> rfl

theorem collideWithBricks_win (g : Game) :
    (collideWithBricks g).win =
      if ((scanBricks g.ball_radius g.ball_x g.ball_y g.bricks).1.all
            (fun b => !b.alive))
      then true else g.win := by
  simp only [collideWithBricks]; split <;> simp_all

theorem collideWithBricks_game_over (g : Game) :
    (collideWithBricks g).game_over =
      if ((scanBricks g.ball_radius g.ball_x g.ball_y g.bricks).1.all
            (fun b => !b.alive))
      then true else g.game_over := by
  simp only [collideWithBricks]; split <;> simp_all

theorem update_of_game_over (t : Trig) (g : Game) (h : g.game_over = true) :
    update t g = g := by
  unfold update; simp [h]

theorem update_of_running (t : Trig) (g : Game) (h : g.game_over = false) :
    update t g = collideWithBricks (collideWithPaddle t (moveBall (movePaddle g))) := by
  unfold update; simp [h]

/-! ### Helper lemmas about bricks -/

theorem createBricks_alive (w : ℚ) (rows cols : ℕ) :
    ∀ b ∈ createBricks w rows cols, b.alive = true := by
  intro b hb
  simp only [createBricks, List.mem_flatMap, List.mem_map, List.mem_range] at hb
  obtain ⟨row, -, col, -, rfl⟩ := hb
  rfl

theorem countDead_createBricks (w : ℚ) (rows cols : ℕ) :
    countDead (createBricks w rows cols) = 0 := by
  unfold countDead
  rw [List.length_eq_zero, List.filter_eq_nil_iff]
  intro b hb
  simp [createBricks_alive w rows cols b hb]

theorem createBricks_zero_rows (w : ℚ) (cols : ℕ) :
    createBricks w 0 cols = [] := by
  simp [createBricks]

/-- A rational stand-in for `math` trigonometry that agrees with the real
functions at angle 0 (`sin 0 = 0`, `cos 0 = 1`), the only angle exercised by
the concrete scenarios below; `piq` is an arbitrary rational in place of π. -/
def trigZero : Trig where
  piq := 355/113
  sinq := fun _ => 0
  cosq := fun _ => 1

/-! ### C1 -/

/-- C1: once `game_over` is true, a further `update` with any combination of
input flags leaves every field of the state unchanged. -/
theorem game_over_update_noop (t : Trig) (g : Game) (l r : Bool)
    (h : g.game_over = true) :
    update t (setInput l r g) = setInput l r g := by
  have hgo : (setInput l r g).game_over = true := h
  exact update_of_game_over t _ hgo

/-- A concrete terminal state for the C1 witness. -/
def gTerminal : Game := { Game.init 600 400 1 1 with game_over := true }

theorem game_over_update_noop_witness :
    gTerminal.game_over = true ∧
      update trigZero (setInput true false gTerminal) = setInput true false gTerminal :=
  ⟨rfl, game_over_update_noop trigZero gTerminal true false rfl⟩

/-! ### C9 -/

/-- C9: `reset` restores score 0, cleared termination and input flags, a
fresh all-alive brick grid, and the initial centered paddle/ball positions
and initial ball velocity. -/
theorem reset_restores_initial (g : Game) :
    (reset g).score = 0 ∧ (reset g).game_over = false ∧ (reset g).win = false ∧
    (reset g).left_pressed = false ∧ (reset g).right_pressed = false ∧
    (reset g).paddle_x = (g.width - g.paddle_width) / 2 ∧
    (reset g).ball_x = g.width / 2 ∧ (reset g).ball_y = g.height - 40 ∧
    (reset g).ball_vx = g.ball_speed ∧ (reset g).ball_vy = -g.ball_speed ∧
    (reset g).bricks = createBricks g.width g.rows g.columns ∧
    ∀ b ∈ (reset g).bricks, b.alive = true := by
  refine ⟨rfl, rfl, rfl, rfl, rfl, rfl, rfl, rfl, rfl, rfl, rfl, ?_⟩
  exact createBricks_alive g.width g.rows g.columns

/-! ### C10 -/

theorem collideWithBricks_empty (g : Game) (h : g.bricks = []) :
    collideWithBricks g = { g with win := true, game_over := true } := by
  simp [collideWithBricks, h, scanBricks]

/-- C10: constructing the game with `rows = 0` (and at least one column, so
the Python constructor does not divide by zero) yields an empty brick list;
the very first `update` then sets `win` and `game_over` even though no brick
was destroyed and the score is still 0. -/
theorem empty_bricks_instant_win (t : Trig) (w h : ℚ) (c : ℕ) (_hc : 1 ≤ c) :
    (update t (Game.init w h 0 c)).win = true ∧
    (update t (Game.init w h 0 c)).game_over = true ∧
    (update t (Game.init w h 0 c)).score = 0 ∧
    (update t (Game.init w h 0 c)).bricks = [] := by
  have hrun : (Game.init w h 0 c).game_over = false := rfl
  rw [update_of_running t _ hrun]
  have hb : (collideWithPaddle t (moveBall (movePaddle (Game.init w h 0 c)))).bricks = [] := by
    simp [Game.init, createBricks_zero_rows]
  rw [collideWithBricks_empty _ hb]
  refine ⟨rfl, rfl, ?_, hb⟩
  simp [Game.init]

theorem empty_bricks_instant_win_witness :
    1 ≤ 1 ∧
      ((update trigZero (Game.init 600 400 0 1)).win = true ∧
       (update trigZero (Game.init 600 400 0 1)).game_over = true ∧
       (update trigZero (Game.init 600 400 0 1)).score = 0 ∧
       (update trigZero (Game.init 600 400 0 1)).bricks = []) :=
  ⟨le_refl 1, empty_bricks_instant_win trigZero 600 400 1 (le_refl 1)⟩

/-! ### C6 -/

/-- C6: whenever the paddle-collision guard holds (ball in the paddle band,
moving down), `_collide_with_paddle` sets `vx = speed * sin(angle)` and
`vy = -|speed * cos(angle)|` with `angle = (hit_pos - 0.5) * pi / 2.2`; a hit
exactly at the paddle center (`hit_pos = 0.5`) gives `vx = 0`,
`vy = -speed` (using `sin 0 = 0`, `cos 0 = 1` and nonnegativity of the
speed constant). -/
theorem paddle_bounce_formula (t : Trig) (g : Game) (h : paddleHitCond g) :
    (collideWithPaddle t g).ball_vx = g.ball_speed * t.sinq (paddleAngle t g) ∧
    (collideWithPaddle t g).ball_vy = -|g.ball_speed * t.cosq (paddleAngle t g)| ∧
    (g.ball_x - g.paddle_x = g.paddle_width / 2 → g.paddle_width ≠ 0 →
      t.sinq 0 = 0 → t.cosq 0 = 1 → 0 ≤ g.ball_speed →
      (collideWithPaddle t g).ball_vx = 0 ∧
      (collideWithPaddle t g).ball_vy = -g.ball_speed) := by
  have hvx : (collideWithPaddle t g).ball_vx = g.ball_speed * t.sinq (paddleAngle t g) := by
    simp [collideWithPaddle, h]
  have hvy : (collideWithPaddle t g).ball_vy = -|g.ball_speed * t.cosq (paddleAngle t g)| := by
    simp [collideWithPaddle, h]
  refine ⟨hvx, hvy, fun hcenter hpw hsin hcos hsp => ?_⟩
  have hangle : paddleAngle t g = 0 := by
    have h2 : g.paddle_width / 2 / g.paddle_width = 1/2 := by
      field_simp
      ring
    rw [paddleAngle, hcenter, h2]
    ring
  rw [hangle] at hvx hvy
  rw [hsin] at hvx
  rw [hcos] at hvy
  refine ⟨by rw [hvx]; ring, ?_⟩
  rw [hvy, mul_one, abs_of_nonneg hsp]

/-- A concrete state with the ball centered on the paddle, moving down. -/
def gPad : Game :=
  { Game.init 600 400 1 1 with ball_x := 300, ball_y := 370, ball_vy := 9/2 }

theorem paddle_bounce_formula_witness :
    paddleHitCond gPad ∧
      (collideWithPaddle trigZero gPad).ball_vx = 0 ∧
      (collideWithPaddle trigZero gPad).ball_vy = -gPad.ball_speed := by
  have hc : paddleHitCond gPad := by
    norm_num [paddleHitCond, gPad, Game.init]
  have hcenter : gPad.ball_x - gPad.paddle_x = gPad.paddle_width / 2 := by
    norm_num [gPad, Game.init]
  have hpw : gPad.paddle_width ≠ 0 := by
    norm_num [gPad, Game.init]
  have hsp : (0 : ℚ) ≤ gPad.ball_speed := by
    norm_num [gPad, Game.init]
  have h := (paddle_bounce_formula trigZero gPad hc).2.2 hcenter hpw rfl rfl hsp
  exact ⟨hc, h.1, h.2⟩

/-! ### C8 -/

/-- C8: an `update` from a Running state moves the paddle by subtracting
`paddle_speed` if the left flag is held and adding it if the right flag is
held, then clamps to `[0, width - paddle_width]`; provided the paddle fits
in the field, the resulting `paddle_x` lies in that interval. -/
theorem paddle_stays_clamped (t : Trig) (g : Game) (hrun : g.game_over = false)
    (hw : g.paddle_width ≤ g.width) :
    0 ≤ (update t g).paddle_x ∧
    (update t g).paddle_x ≤ g.width - g.paddle_width ∧
    (update t g).paddle_x =
      max 0 (min (g.width - g.paddle_width)
        (if g.right_pressed then
          (if g.left_pressed then g.paddle_x - g.paddle_speed else g.paddle_x) +
            g.paddle_speed
         else if g.left_pressed then g.paddle_x - g.paddle_speed else g.paddle_x)) := by
  rw [update_of_running t g hrun]
  have hx : (collideWithBricks (collideWithPaddle t (moveBall (movePaddle g)))).paddle_x
      = (movePaddle g).paddle_x := by
    simp
  rw [hx, movePaddle_paddle_x]
  refine ⟨le_max_left 0 _, ?_, rfl⟩
  refine max_le (by linarith) (min_le_left _ _)

theorem paddle_stays_clamped_witness :
    (Game.init 600 400 1 1).game_over = false ∧
    (Game.init 600 400 1 1).paddle_width ≤ (Game.init 600 400 1 1).width ∧
    0 ≤ (update trigZero (Game.init 600 400 1 1)).paddle_x ∧
    (update trigZero (Game.init 600 400 1 1)).paddle_x
      ≤ (Game.init 600 400 1 1).width - (Game.init 600 400 1 1).paddle_width := by
  have h1 : (Game.init 600 400 1 1).game_over = false := rfl
  have h2 : (Game.init 600 400 1 1).paddle_width ≤ (Game.init 600 400 1 1).width := by
    norm_num [Game.init]
  have h3 := paddle_stays_clamped trigZero (Game.init 600 400 1 1) h1 h2
  exact ⟨h1, h2, h3.1, h3.2.1⟩

/-! ### C7 -/

/-- The single brick produced by a 1 × 1 construction on a 600-wide field. -/
theorem createBricks_600_1_1 :
    createBricks 600 1 1 =
      [{ x := 30, y := 40, width := 540, height := 16, alive := true }] := by
  norm_num [createBricks, List.range_succ]

/-- C7: if the ball's position after the move of a tick is at or below the
bottom margin (`y ≥ height - radius`), the tick sets `game_over := true`;
the tick is the full phase composition (no early exit after the loss
check), the ball-move phase never touches `win`, and the final `win` stays
`false` as long as the independent all-bricks-dead check does not fire. -/
theorem loss_condition_thm (t : Trig) (g : Game) (hrun : g.game_over = false)
    (hy : g.height - g.ball_radius ≤ g.ball_y + g.ball_vy) :
    (update t g).game_over = true ∧
    update t g = collideWithBricks (collideWithPaddle t (moveBall (movePaddle g))) ∧
    (moveBall (movePaddle g)).win = g.win ∧
    (g.win = false →
      ((update t g).bricks.all (fun b => !b.alive)) = false →
      (update t g).win = false) := by
  have h2 : update t g = collideWithBricks (collideWithPaddle t (moveBall (movePaddle g))) :=
    update_of_running t g hrun
  have hgo1 : (moveBall (movePaddle g)).game_over = true := by
    rw [moveBall_game_over]
    simp only [movePaddle_ball_y, movePaddle_ball_vy, movePaddle_height,
      movePaddle_ball_radius, ge_iff_le]
    rw [if_pos hy]
  refine ⟨?_, h2, rfl, ?_⟩
  · rw [h2, collideWithBricks_game_over]
    simp [hgo1]
  · intro hwin hall
    rw [h2, collideWithBricks_bricks] at hall
    rw [h2, collideWithBricks_win]
    simp only [collideWithPaddle_bricks, moveBall_bricks, movePaddle_bricks,
      collideWithPaddle_ball_radius, moveBall_ball_radius,
      collideWithPaddle_ball_x, moveBall_ball_x, movePaddle_ball_x,
      collideWithPaddle_ball_y, moveBall_ball_y, movePaddle_ball_y,
      movePaddle_ball_vx, movePaddle_ball_vy] at hall ⊢
    rw [hall]
    simp [hwin]

/-- A concrete running state with the ball one unit past the bottom margin. -/
def gLoss : Game :=
  { Game.init 600 400 1 1 with ball_y := 395, ball_vy := 9/2 }

theorem loss_condition_witness :
    gLoss.game_over = false ∧
    gLoss.height - gLoss.ball_radius ≤ gLoss.ball_y + gLoss.ball_vy ∧
    gLoss.win = false ∧
    ((update trigZero gLoss).bricks.all (fun b => !b.alive)) = false ∧
    (update trigZero gLoss).game_over = true ∧
    (update trigZero gLoss).win = false := by
  have h1 : gLoss.game_over = false := rfl
  have hy : gLoss.height - gLoss.ball_radius ≤ gLoss.ball_y + gLoss.ball_vy := by
    norm_num [gLoss, Game.init]
  have hall : ((update trigZero gLoss).bricks.all (fun b => !b.alive)) = false := by
    norm_num [update, movePaddle, moveBall, collideWithPaddle, collideWithBricks,
      paddleHitCond, brickHit, scanBricks, paddleAngle, gLoss, Game.init,
      createBricks_600_1_1, trigZero]
  have h := loss_condition_thm trigZero gLoss h1 hy
  exact ⟨h1, hy, rfl, hall, h.1, h.2.2.2 rfl hall⟩

/-! ### C4 -/

/-- The loop condition of `_collide_with_bricks` as a boolean predicate:
the brick is alive and hit by the ball. -/
def hitPred (radius bx bY : ℚ) (b : Brick) : Bool :=
  b.alive && decide (brickHit radius bx bY b)

/-- Kill (set `alive := false`) the brick at position `i`, leaving every
other brick untouched. -/
def killAt : List Brick → ℕ → List Brick
  | [], _ => []
  | b :: rest, 0 => { b with alive := false } :: rest
  | b :: rest, n + 1 => b :: killAt rest n

theorem hitPred_eq_true (radius bx bY : ℚ) (b : Brick) :
    hitPred radius bx bY b = true ↔ (b.alive = true ∧ brickHit radius bx bY b) := by
  simp [hitPred]

/-- The scan returns the input list unchanged when no alive brick is hit. -/
theorem scanBricks_spec (radius bx bY : ℚ) (l : List Brick) :
    scanBricks radius bx bY l =
      match l.findIdx? (hitPred radius bx bY) with
      | none => (l, false)
      | some i => (killAt l i, true) := by
  induction l with
  | nil => rfl
  | cons b rest ih =>
    rw [scanBricks]
    by_cases hb : b.alive = true ∧ brickHit radius bx bY b
    · rw [if_pos hb]
      have hpb : hitPred radius bx bY b = true := (hitPred_eq_true radius bx bY b).mpr hb
      rw [List.findIdx?_cons, hpb]
      simp [killAt]
    · rw [if_neg hb]
      have hpb : hitPred radius bx bY b = false := by
        simp only [Bool.eq_false_iff, Ne, hitPred_eq_true]
        exact hb
      rw [List.findIdx?_cons, hpb]
      simp only [Bool.false_eq_true, if_false, Nat.zero_add, List.findIdx?_succ]
      cases hfind : rest.findIdx? (hitPred radius bx bY) with
      | none => simp [ih, hfind]
      | some i => simp [ih, hfind, killAt]

theorem scanBricks_of_none (radius bx bY : ℚ) (l : List Brick)
    (h : l.findIdx? (hitPred radius bx bY) = none) :
    scanBricks radius bx bY l = (l, false) := by
  have hs := scanBricks_spec radius bx bY l
  rw [h] at hs
  exact hs

theorem scanBricks_of_some (radius bx bY : ℚ) (l : List Brick) (i : ℕ)
    (h : l.findIdx? (hitPred radius bx bY) = some i) :
    scanBricks radius bx bY l = (killAt l i, true) := by
  have hs := scanBricks_spec radius bx bY l
  rw [h] at hs
  exact hs

theorem countDead_cons (b : Brick) (l : List Brick) :
    countDead (b :: l) = (if b.alive then 0 else 1) + countDead l := by
  cases hb : b.alive <;> simp [countDead, List.filter_cons, hb] <;> omega

theorem countDead_killAt_le (l : List Brick) (i : ℕ) :
    countDead (killAt l i) ≤ countDead l + 1 := by
  induction l generalizing i with
  | nil => simp [killAt]
  | cons b rest ih =>
    cases i with
    | zero =>
      rw [killAt, countDead_cons, countDead_cons]
      cases hb : b.alive <;> simp <;> omega
    | succ n =>
      rw [killAt, countDead_cons, countDead_cons]
      have := ih n
      omega

/-- C4: per tick at most one brick is destroyed.  With `i` the position of
the first alive brick whose radius-expanded AABB contains the ball center
(`findIdx?` returns the first index satisfying the predicate),
`_collide_with_bricks` kills exactly the brick at `i` (all others
unchanged, per `killAt`), adds 10 to the score and negates `vy`; when no
alive brick is hit it changes none of bricks, score, or `vy`. -/
theorem brick_collision_first_hit (g : Game) :
    countDead (collideWithBricks g).bricks ≤ countDead g.bricks + 1 ∧
    (g.bricks.findIdx? (hitPred g.ball_radius g.ball_x g.ball_y) = none →
      (collideWithBricks g).bricks = g.bricks ∧
      (collideWithBricks g).score = g.score ∧
      (collideWithBricks g).ball_vy = g.ball_vy) ∧
    (∀ i, g.bricks.findIdx? (hitPred g.ball_radius g.ball_x g.ball_y) = some i →
      (collideWithBricks g).bricks = killAt g.bricks i ∧
      (collideWithBricks g).score = g.score + 10 ∧
      (collideWithBricks g).ball_vy = -g.ball_vy) := by
  cases hfind : g.bricks.findIdx? (hitPred g.ball_radius g.ball_x g.ball_y) with
  | none =>
    have hs := scanBricks_of_none g.ball_radius g.ball_x g.ball_y g.bricks hfind
    refine ⟨?_, fun _ => ⟨?_, ?_, ?_⟩, fun i hi => Option.noConfusion hi⟩
    · rw [collideWithBricks_bricks, hs]
      exact Nat.le_succ _
    · rw [collideWithBricks_bricks, hs]
    · rw [collideWithBricks_score, hs]
      simp
    · rw [collideWithBricks_ball_vy, hs]
      simp
  | some i =>
    have hs := scanBricks_of_some g.ball_radius g.ball_x g.ball_y g.bricks i hfind
    refine ⟨?_, fun hnone => Option.noConfusion hnone, fun j hj => ?_⟩
    · rw [collideWithBricks_bricks, hs]
      exact countDead_killAt_le g.bricks i
    · cases hj
      refine ⟨?_, ?_, ?_⟩
      · rw [collideWithBricks_bricks, hs]
      · rw [collideWithBricks_score, hs]
        simp
      · rw [collideWithBricks_ball_vy, hs]
        simp

/-- A concrete state with the ball inside the single brick's expanded AABB. -/
def gBrick : Game :=
  { Game.init 600 400 1 1 with ball_x := 100, ball_y := 50 }

theorem brick_collision_first_hit_witness :
    gBrick.bricks.findIdx? (hitPred gBrick.ball_radius gBrick.ball_x gBrick.ball_y)
        = some 0 ∧
    (collideWithBricks gBrick).bricks = killAt gBrick.bricks 0 ∧
    (collideWithBricks gBrick).score = gBrick.score + 10 ∧
    (collideWithBricks gBrick).ball_vy = -gBrick.ball_vy := by
  have hfind : gBrick.bricks.findIdx?
      (hitPred gBrick.ball_radius gBrick.ball_x gBrick.ball_y) = some 0 := by
    norm_num [gBrick, Game.init, createBricks_600_1_1, List.findIdx?_cons,
      hitPred, brickHit]
  exact ⟨hfind, (brick_collision_first_hit gBrick).2.2 0 hfind⟩

/-! ### C2 and C5: reachability invariant -/

/-- The two state invariants: the score counts destroyed bricks at 10
points each, and `win` implies all bricks destroyed and `game_over`. -/
def GameInv (s : Game) : Prop :=
  s.score = 10 * (countDead s.bricks : ℤ) ∧
  (s.win = true → (∀ b ∈ s.bricks, b.alive = false) ∧ s.game_over = true)

theorem all_not_alive_iff (l : List Brick) :
    (l.all (fun b => !b.alive) = true) ↔ ∀ b ∈ l, b.alive = false := by
  simp [List.all_eq_true]

theorem scanBricks_snd_false (radius bx bY : ℚ) (l : List Brick)
    (h : (scanBricks radius bx bY l).2 = false) :
    (scanBricks radius bx bY l).1 = l := by
  induction l with
  | nil => rfl
  | cons b rest ih =>
    rw [scanBricks] at h ⊢
    by_cases hb : b.alive = true ∧ brickHit radius bx bY b
    · rw [if_pos hb] at h
      cases h
    · rw [if_neg hb] at h ⊢
      dsimp only at h ⊢
      rw [ih h]

theorem scanBricks_snd_true_countDead (radius bx bY : ℚ) (l : List Brick)
    (h : (scanBricks radius bx bY l).2 = true) :
    countDead (scanBricks radius bx bY l).1 = countDead l + 1 := by
  induction l with
  | nil => cases h
  | cons b rest ih =>
    rw [scanBricks] at h ⊢
    by_cases hb : b.alive = true ∧ brickHit radius bx bY b
    · rw [if_pos hb]
      dsimp only
      rw [countDead_cons, countDead_cons]
      simp [hb.1]
      omega
    · rw [if_neg hb] at h ⊢
      dsimp only at h ⊢
      rw [countDead_cons, countDead_cons, ih h]
      omega

theorem inv_collideWithBricks (g : Game)
    (hscore : g.score = 10 * (countDead g.bricks : ℤ))
    (hwinf : g.win = false) :
    GameInv (collideWithBricks g) := by
  constructor
  · rw [collideWithBricks_score, collideWithBricks_bricks]
    cases hhit : (scanBricks g.ball_radius g.ball_x g.ball_y g.bricks).2
    · simp only [hhit, Bool.false_eq_true, if_false]
      rw [scanBricks_snd_false _ _ _ _ hhit]
      exact hscore
    · simp only [hhit, if_true]
      rw [scanBricks_snd_true_countDead _ _ _ _ hhit, hscore]
      push_cast
      ring
  · rw [collideWithBricks_win, collideWithBricks_game_over, collideWithBricks_bricks]
    cases hall : ((scanBricks g.ball_radius g.ball_x g.ball_y g.bricks).1.all
        (fun b => !b.alive))
    · simp only [hall, Bool.false_eq_true, if_false]
      intro hcontra
      rw [hwinf] at hcontra
      cases hcontra
    · simp only [hall, if_true]
      intro _
      exact ⟨(all_not_alive_iff _).mp hall, trivial⟩

theorem inv_update (t : Trig) (g : Game) (h : GameInv g) : GameInv (update t g) := by
  by_cases hgo : g.game_over = true
  · rw [update_of_game_over t g hgo]
    exact h
  · have hrun : g.game_over = false := by simpa using hgo
    rw [update_of_running t g hrun]
    have hwinf : g.win = false := by
      cases hw : g.win
      · rfl
      · have := (h.2 hw).2
        rw [hrun] at this
        cases this
    apply inv_collideWithBricks
    · simpa using h.1
    · simpa using hwinf

theorem inv_reset (g : Game) : GameInv (reset g) := by
  constructor
  · show (0 : ℤ) = 10 * (countDead (createBricks g.width g.rows g.columns) : ℤ)
    rw [countDead_createBricks]
    simp
  · intro hw
    cases hw

theorem inv_init (w h : ℚ) (rows cols : ℕ) : GameInv (Game.init w h rows cols) := by
  constructor
  · show (0 : ℤ) = 10 * (countDead (createBricks w rows cols) : ℤ)
    rw [countDead_createBricks]
    simp
  · intro hw
    cases hw

theorem reachable_inv (t : Trig) (w h : ℚ) (rows cols : ℕ) (s : Game)
    (hs : Reachable t (Game.init w h rows cols) s) : GameInv s := by
  induction hs with
  | refl => exact inv_init w h rows cols
  | step_update _ ih => exact inv_update _ _ ih
  | step_reset _ ih => exact inv_reset _
  | step_input l r _ ih => exact ih

/-- C2: in every state reachable from a constructed game by ticks, resets
and key events, the score equals 10 times the number of destroyed bricks. -/
theorem score_is_ten_times_dead (t : Trig) (w h : ℚ) (rows cols : ℕ) (s : Game)
    (hs : Reachable t (Game.init w h rows cols) s) :
    s.score = 10 * (countDead s.bricks : ℤ) :=
  (reachable_inv t w h rows cols s hs).1

theorem score_is_ten_times_dead_witness :
    (Game.init 600 400 1 1).score = 10 * (countDead (Game.init 600 400 1 1).bricks : ℤ) ∧
    countDead (Game.init 600 400 1 1).bricks = 0 :=
  ⟨score_is_ten_times_dead trigZero 600 400 1 1 (Game.init 600 400 1 1) Reachable.refl,
   countDead_createBricks 600 1 1⟩

/-- C5: in every reachable state `win = true` implies every brick is dead
and `game_over = true`; and an `update` from a running, not-yet-won state
sets `win` exactly when, after the brick scan, no brick is alive. -/
theorem win_implies_cleared (t : Trig) (w h : ℚ) (rows cols : ℕ) (s : Game)
    (hs : Reachable t (Game.init w h rows cols) s) :
    (s.win = true → (∀ b ∈ s.bricks, b.alive = false) ∧ s.game_over = true) ∧
    (∀ g : Game, g.game_over = false → g.win = false →
      ((update t g).win = true ↔
        (update t g).bricks.all (fun b => !b.alive) = true)) := by
  refine ⟨(reachable_inv t w h rows cols s hs).2, fun g hrun hwinf => ?_⟩
  have hw1 : (collideWithPaddle t (moveBall (movePaddle g))).win = g.win := by simp
  rw [update_of_running t g hrun, collideWithBricks_win, collideWithBricks_bricks,
    hw1, hwinf]
  simp only [collideWithPaddle_bricks, moveBall_bricks, movePaddle_bricks,
    collideWithPaddle_ball_radius, moveBall_ball_radius, movePaddle_ball_radius,
    collideWithPaddle_ball_x, moveBall_ball_x, movePaddle_ball_x,
    collideWithPaddle_ball_y, moveBall_ball_y, movePaddle_ball_y,
    movePaddle_ball_vx, movePaddle_ball_vy]
  split
  case isTrue h' => simp [h']
  case isFalse h' => simp [h']

theorem win_implies_cleared_witness :
    (Game.init 600 400 0 1).game_over = false ∧
    (Game.init 600 400 0 1).win = false ∧
    ((update trigZero (Game.init 600 400 0 1)).win = true ↔
      (update trigZero (Game.init 600 400 0 1)).bricks.all (fun b => !b.alive) = true) :=
  ⟨rfl, rfl,
    (win_implies_cleared trigZero 600 400 0 1 (Game.init 600 400 0 1)
        Reachable.refl).2 (Game.init 600 400 0 1) rfl rfl⟩

/-! ### C3 -/

/-- A concrete running state one tick before a dead-center paddle bounce:
velocity `(4.5, 4.5)` has squared magnitude `2 * speed²`, and the bounce
re-aims it to squared magnitude `speed²`. -/
def gBounce : Game :=
  { Game.init 600 400 1 1 with ball_x := 591/2, ball_y := 731/2, ball_vy := 9/2 }

/-- C3 counterexample: the squared velocity magnitude is NOT conserved by
every `update`: at `gBounce` the paddle bounce changes it from `81/2`
(speed²·2) to `81/4` (speed²).  The bounce here happens at the exact paddle
center, where the angle is 0 and the real `sin`/`cos` agree exactly with
the rational stand-in `trigZero`. -/
theorem magnitude_not_conserved :
    ¬ ((update trigZero gBounce).ball_vx ^ 2 + (update trigZero gBounce).ball_vy ^ 2
        = gBounce.ball_vx ^ 2 + gBounce.ball_vy ^ 2) := by
  have h1 : (update trigZero gBounce).ball_vx ^ 2 +
      (update trigZero gBounce).ball_vy ^ 2 = 81/4 := by
    norm_num [update, movePaddle, moveBall, collideWithPaddle, collideWithBricks,
      paddleHitCond, paddleAngle, brickHit, scanBricks, gBounce, Game.init,
      createBricks_600_1_1, trigZero]
  rw [h1]
  norm_num [gBounce, Game.init]

/-- C3 (amended): per tick from a running state the squared velocity
magnitude is either preserved exactly (wall and brick collisions only flip
the sign of one component) or re-set to exactly `ball_speed ^ 2` by the
paddle-bounce re-aim; in particular whenever the paddle guard fires during
the tick, the post-tick squared magnitude equals `ball_speed ^ 2`.  (The
bounce sets the magnitude to the speed constant; it does not in general
preserve the prior magnitude, which is `speed * sqrt 2` in the initial
state.)  The Pythagorean identity for the modelled `sin`/`cos` is taken as
a hypothesis. -/
theorem update_speed_sq (t : Trig)
    (hpy : ∀ a, t.sinq a ^ 2 + t.cosq a ^ 2 = 1)
    (g : Game) (hrun : g.game_over = false) :
    ((update t g).ball_vx ^ 2 + (update t g).ball_vy ^ 2
        = g.ball_vx ^ 2 + g.ball_vy ^ 2 ∨
     (update t g).ball_vx ^ 2 + (update t g).ball_vy ^ 2 = g.ball_speed ^ 2) ∧
    (paddleHitCond (moveBall (movePaddle g)) →
      (update t g).ball_vx ^ 2 + (update t g).ball_vy ^ 2 = g.ball_speed ^ 2) := by
  rw [update_of_running t g hrun]
  have hb : ∀ gg : Game,
      (collideWithBricks gg).ball_vx ^ 2 + (collideWithBricks gg).ball_vy ^ 2
        = gg.ball_vx ^ 2 + gg.ball_vy ^ 2 := by
    intro gg
    rw [collideWithBricks_ball_vx, collideWithBricks_ball_vy]
    split <;> ring
  have hm : (moveBall (movePaddle g)).ball_vx ^ 2 + (moveBall (movePaddle g)).ball_vy ^ 2
      = g.ball_vx ^ 2 + g.ball_vy ^ 2 := by
    rw [moveBall_ball_vx, moveBall_ball_vy]
    simp only [movePaddle_ball_x, movePaddle_ball_y, movePaddle_ball_vx,
      movePaddle_ball_vy, movePaddle_ball_radius, movePaddle_width,
      movePaddle_height]
    split <;> split <;> ring
  by_cases hp : paddleHitCond (moveBall (movePaddle g))
  · have hp2 : (collideWithPaddle t (moveBall (movePaddle g))).ball_vx ^ 2 +
        (collideWithPaddle t (moveBall (movePaddle g))).ball_vy ^ 2
          = g.ball_speed ^ 2 := by
      simp only [collideWithPaddle, if_pos hp, moveBall_ball_speed,
        movePaddle_ball_speed]
      rw [neg_sq, sq_abs]
      have hexp : (g.ball_speed * t.sinq (paddleAngle t (moveBall (movePaddle g)))) ^ 2 +
          (g.ball_speed * t.cosq (paddleAngle t (moveBall (movePaddle g)))) ^ 2
            = g.ball_speed ^ 2 *
              (t.sinq (paddleAngle t (moveBall (movePaddle g))) ^ 2 +
               t.cosq (paddleAngle t (moveBall (movePaddle g))) ^ 2) := by
        ring
      rw [hexp, hpy, mul_one]
    exact ⟨Or.inr (by rw [hb]; exact hp2), fun _ => by rw [hb]; exact hp2⟩
  · have hp3 : collideWithPaddle t (moveBall (movePaddle g)) = moveBall (movePaddle g) := by
      simp [collideWithPaddle, hp]
    refine ⟨Or.inl ?_, fun hcontra => absurd hcontra hp⟩
    rw [hb, hp3, hm]

theorem update_speed_sq_witness :
    (∀ a, trigZero.sinq a ^ 2 + trigZero.cosq a ^ 2 = 1) ∧
    gBounce.game_over = false ∧
    ((update trigZero gBounce).ball_vx ^ 2 + (update trigZero gBounce).ball_vy ^ 2
        = gBounce.ball_vx ^ 2 + gBounce.ball_vy ^ 2 ∨
     (update trigZero gBounce).ball_vx ^ 2 + (update trigZero gBounce).ball_vy ^ 2
        = gBounce.ball_speed ^ 2) := by
  have hpy : ∀ a, trigZero.sinq a ^ 2 + trigZero.cosq a ^ 2 = 1 := by
    intro a
    norm_num [trigZero]
  exact ⟨hpy, rfl, (update_speed_sq trigZero hpy gBounce rfl).1⟩
